import Mathlib

/-!
Shallow embedding of `generic-webdriver-server.js`: the response model, the
dispatcher wrapper (`apiWrapper`), the HTTP endpoint handlers, and the
single-session lifecycle manager (`GenericSingleSessionWebDriverServer`).

Modelling conventions:
* JavaScript string truthiness (`if (this.sessionId_)`) becomes comparison
  with `""`; `sessionId != this.sessionId_` becomes string inequality.
* Backend hook calls (`navigateToSingleSession`, `closeSingleSession`,
  `shutdownSingleSession`) and the random byte source (`randomBytes`) are
  environment inputs: each call site takes the result of that invocation as
  an explicit parameter (`Except Thrown Unit` for hooks that may throw, a
  `Fin NUM_RANDOM_ID_BYTES → Nat` byte vector for `randomBytes`).
* Observable side effects - hook invocations, timer arming / refreshing /
  clearing, error logging - are recorded in an event trace returned next to
  the new state.
* `setTimeout` handles are modelled by a `Timer` record that carries, as
  ghost data, the session id that was active when the timer was armed and
  the delay it was armed with; `clearTimeout` + `this.timeout_ = null`
  becomes setting the `Option Timer` field to `none`.
* A JavaScript method can return normally, throw a value, or crash with a
  `TypeError` by calling `.refresh()` on `null`; the three cases are the
  three constructors of `Outcome` (the `TypeError` is kept distinct so that
  its unreachability can be proved).
* Methods are modelled as atomic state transitions, i.e. requests are
  serialized; the interleaving at `await` points is outside this model.
-/

namespace WebDriver

/-- Values carried in WebDriver response payloads (JSON-like). -/
inductive JsValue where
  | str (s : String)
  | obj (fields : List (String × JsValue))

/-- Container for WebDriver responses: class `GenericWebDriverResponse` in
the source, holding a payload and an HTTP status code. -/
structure GenericWebDriverResponse where
  value : JsValue
  httpStatusCode : Nat

/-- Class `Success`: HTTP 200 with a caller-supplied payload. -/
def Success (value : JsValue) : GenericWebDriverResponse :=
  ⟨value, 200⟩

/-- Class `SessionNotCreatedError`: HTTP 500. -/
def SessionNotCreatedError : GenericWebDriverResponse :=
  ⟨.obj [("error", .str "session not created")], 500⟩

/-- Class `UnknownCommandError`: HTTP 404. -/
def UnknownCommandError : GenericWebDriverResponse :=
  ⟨.obj [("error", .str "unknown command")], 404⟩

/-- Class `InvalidArgumentError`: HTTP 400. -/
def InvalidArgumentError : GenericWebDriverResponse :=
  ⟨.obj [("error", .str "invalid argument")], 400⟩

/-- Class `InvalidSessionIdError`: HTTP 404. -/
def InvalidSessionIdError : GenericWebDriverResponse :=
  ⟨.obj [("error", .str "invalid session id")], 404⟩

/-- Class `UnableToCaptureScreenError`: HTTP 500. -/
def UnableToCaptureScreenError : GenericWebDriverResponse :=
  ⟨.obj [("error", .str "unable to capture screen")], 500⟩

/-- Class `UnknownError`: HTTP 500. -/
def UnknownError : GenericWebDriverResponse :=
  ⟨.obj [("error", .str "unknown error")], 500⟩

/-- A thrown JavaScript value: either a `GenericWebDriverResponse` thrown on
purpose, or any other error value (modelled by its message). -/
inductive Thrown where
  | resp (r : GenericWebDriverResponse)
  | other (msg : String)

/-- Result of running a handler or method body: normal return, a thrown
value, or the `TypeError` raised by calling `.refresh()` on a `null`
`this.timeout_`.  The last is a thrown `TypeError` in JavaScript; it is kept
as a separate constructor so its unreachability can be stated. -/
inductive Outcome (α : Type) where
  | ok (a : α)
  | thrown (t : Thrown)
  | nullDeref

/-- The response chosen by `apiWrapper`'s try/catch: a returned `Response`
is used; a thrown `GenericWebDriverResponse` becomes the result; any other
thrown value (including a `TypeError`) becomes `UnknownError`. -/
def responseOf (outcome : Outcome GenericWebDriverResponse) :
    GenericWebDriverResponse :=
  match outcome with
  | .ok r => r
  | .thrown (.resp r) => r
  | .thrown (.other _) => UnknownError
  | .nullDeref => UnknownError

/-- What goes on the wire: the HTTP status and the JSON body. -/
structure WireResponse where
  status : Nat
  body : JsValue

/-- Function `apiWrapper` in the source: resolve the handler outcome through
the try/catch, then send `response.httpStatusCode` as the HTTP status and
`{value: response.value}` as the JSON body. -/
def apiWrapper (outcome : Outcome GenericWebDriverResponse) : WireResponse :=
  ⟨(responseOf outcome).httpStatusCode,
   .obj [("value", (responseOf outcome).value)]⟩

/-- Constant `NUM_RANDOM_ID_BYTES` in the source. -/
def NUM_RANDOM_ID_BYTES : Nat := 16

/-- Constant `MILLISECONDS_PER_SECOND` in the source. -/
def MILLISECONDS_PER_SECOND : Nat := 1000

/-- Lowercase hex digits, as used by `Buffer.toString('hex')`: codepoints
48-57 are the decimal digits and 97-102 the letters a through f. -/
def hexDigits : List Char :=
  (List.range 16).map fun n =>
    if n < 10 then Char.ofNat (48 + n) else Char.ofNat (87 + n)

/-- Hex digit for a nibble value. -/
def hexDigit (n : Nat) : Char := hexDigits.getD n '0'

/-- Two-digit lowercase hex encoding of one byte, high nibble first, as
`Buffer.toString('hex')` renders each byte. -/
def byteHex (b : Nat) : List Char := [hexDigit (b / 16), hexDigit (b % 16)]

/-- Character list of the hex encoding of a byte list. -/
def bytesToHexChars (bs : List Nat) : List Char :=
  (bs.map byteHex).flatten

/-- The string `bytes.toString('hex')` for a byte list. -/
def bytesToHex (bs : List Nat) : String := String.mk (bytesToHexChars bs)

/-- A live `setTimeout` handle.  `armedFor` and `delayMs` are ghost data
recording the session id that was active when the timer was armed and the
delay passed to `setTimeout` / kept by `.refresh()`. -/
structure Timer where
  armedFor : String
  delayMs : Nat
deriving DecidableEq

/-- Mutable state of `GenericSingleSessionWebDriverServer`: the fields
`this.sessionId_` (empty string when idle) and `this.timeout_`. -/
structure SSState where
  sessionId : String
  timeout : Option Timer
deriving DecidableEq

/-- State installed by the constructor: `sessionId_ = ''`, `timeout_ = null`. -/
def initState : SSState := ⟨"", none⟩

/-- Observable side effects of the lifecycle manager. -/
inductive Event where
  | logError
  | timerArmed (id : String) (delayMs : Nat)
  | timerRefresh
  | timerCleared
  | navigateHook (url : String)
  | closeHook
  | shutdownHook
deriving DecidableEq

/-- Method `createSession` of `GenericSingleSessionWebDriverServer`.
`idleTimeoutSeconds` is the parsed flag; `bytes` is the result of
`await randomBytes(NUM_RANDOM_ID_BYTES)`.  If a session is active, log an
error and return `null`; otherwise store the hex id, arm the idle timer
whose callback is `closeSession(this.sessionId_)`, and return the id. -/
def createSession (idleTimeoutSeconds : Nat) (bytes : List Nat)
    (s : SSState) : Outcome (Option String) × SSState × List Event :=
  if s.sessionId ≠ "" then
    (.ok none, s, [.logError])
  else
    let id := bytesToHex bytes
    let delay := idleTimeoutSeconds * MILLISECONDS_PER_SECOND
    (.ok (some id), ⟨id, some ⟨id, delay⟩⟩, [.timerArmed id delay])

/-- Method `closeSession` of `GenericSingleSessionWebDriverServer`.
`closeRes` is the result of the `this.closeSingleSession()` invocation on
the matching path.  On a missing or mismatched id, return silently; on a
match, clear the id, clear the timer, and invoke the close hook inside a
try/catch that logs and swallows any thrown value.  Never throws. -/
def closeSession (closeRes : Except Thrown Unit) (s : SSState)
    (sessionId : String) : Outcome Unit × SSState × List Event :=
  if s.sessionId = "" ∨ sessionId ≠ s.sessionId then
    (.ok (), s, [])
  else
    match closeRes with
    | .ok _ => (.ok (), ⟨"", none⟩, [.timerCleared, .closeHook])
    | .error _ => (.ok (), ⟨"", none⟩, [.timerCleared, .closeHook, .logError])

/-- Method `navigateTo` of `GenericSingleSessionWebDriverServer`.
`navRes` is the result of the `this.navigateToSingleSession(url)`
invocation.  Throw `InvalidSessionIdError` unless the id matches; then
`this.timeout_.refresh()` (a `TypeError` if the handle is `null`), then
delegate to the navigation hook. -/
def navigateTo (navRes : Except Thrown Unit) (s : SSState)
    (sessionId url : String) : Outcome Unit × SSState × List Event :=
  if s.sessionId = "" ∨ sessionId ≠ s.sessionId then
    (.thrown (.resp InvalidSessionIdError), s, [])
  else
    match s.timeout with
    | none => (.nullDeref, s, [])
    | some _ =>
      match navRes with
      | .ok _ => (.ok (), s, [.timerRefresh, .navigateHook url])
      | .error e => (.thrown e, s, [.timerRefresh, .navigateHook url])

/-- Method `getTitle` of `GenericSingleSessionWebDriverServer`: same id
check and `this.timeout_.refresh()` as `navigateTo`, then return the fixed
placeholder string without calling any backend hook. -/
def getTitle (s : SSState) (sessionId : String) :
    Outcome String × SSState × List Event :=
  if s.sessionId = "" ∨ sessionId ≠ s.sessionId then
    (.thrown (.resp InvalidSessionIdError), s, [])
  else
    match s.timeout with
    | none => (.nullDeref, s, [])
    | some _ => (.ok "Title of the page", s, [.timerRefresh])

/-- Method `shutdown` of `GenericSingleSessionWebDriverServer`: if a session
is active, call `closeSession(this.sessionId_)` (which never throws), then
invoke `this.shutdownSingleSession()`, whose result is `shutdownRes`. -/
def shutdown (closeRes shutdownRes : Except Thrown Unit) (s : SSState) :
    Outcome Unit × SSState × List Event :=
  let closed :=
    if s.sessionId ≠ "" then
      let r := closeSession closeRes s s.sessionId
      (r.2.1, r.2.2)
    else
      (s, [])
  match shutdownRes with
  | .ok _ => (.ok (), closed.1, closed.2 ++ [.shutdownHook])
  | .error e => (.thrown e, closed.1, closed.2 ++ [.shutdownHook])

/-- Firing of the armed idle timer: a cleared handle (`timeout_ = null`)
never fires; a live handle runs the callback installed by `createSession`,
which calls `closeSession(this.sessionId_)` on the current id. -/
def fireTimer (closeRes : Except Thrown Unit) (s : SSState) :
    SSState × List Event :=
  match s.timeout with
  | none => (s, [])
  | some _ =>
    let r := closeSession closeRes s s.sessionId
    (r.2.1, r.2.2)

/-- One lifecycle-manager operation together with its environment inputs:
the random bytes for `createSession` and the hook results. -/
inductive Op where
  | create (bytes : Fin NUM_RANDOM_ID_BYTES → Nat)
  | navigate (sessionId url : String) (navRes : Except Thrown Unit)
  | title (sessionId : String)
  | close (sessionId : String) (closeRes : Except Thrown Unit)
  | shutdownOp (closeRes shutdownRes : Except Thrown Unit)
  | fire (closeRes : Except Thrown Unit)

/-- State transition of one operation (`idleTimeoutSeconds` is the fixed
parsed configuration of the server instance). -/
def step (idleTimeoutSeconds : Nat) (s : SSState) (op : Op) : SSState :=
  match op with
  | .create bytes => (createSession idleTimeoutSeconds (List.ofFn bytes) s).2.1
  | .navigate id url navRes => (navigateTo navRes s id url).2.1
  | .title id => (getTitle s id).2.1
  | .close id closeRes => (closeSession closeRes s id).2.1
  | .shutdownOp closeRes shutdownRes => (shutdown closeRes shutdownRes s).2.1
  | .fire closeRes => (fireTimer closeRes s).1

/-- States reachable from the constructor state by operation sequences. -/
inductive Reachable (idleTimeoutSeconds : Nat) : SSState → Prop where
  | start : Reachable idleTimeoutSeconds initState
  | next (s : SSState) (op : Op) : Reachable idleTimeoutSeconds s →
      Reachable idleTimeoutSeconds (step idleTimeoutSeconds s op)

/-- Endpoint handler for `POST /session`, composed with `apiWrapper`: a
null or empty id from `createSession` becomes `SessionNotCreatedError`,
otherwise `Success({sessionId, capabilities: {}})`. -/
def postSession (idleTimeoutSeconds : Nat) (bytes : List Nat) (s : SSState) :
    WireResponse × SSState × List Event :=
  let r := createSession idleTimeoutSeconds bytes s
  let handlerOut : Outcome GenericWebDriverResponse :=
    match r.1 with
    | .ok none => .ok SessionNotCreatedError
    | .ok (some id) =>
      if id = "" then .ok SessionNotCreatedError
      else .ok (Success (.obj [("sessionId", .str id), ("capabilities", .obj [])]))
    | .thrown t => .thrown t
    | .nullDeref => .nullDeref
  (apiWrapper handlerOut, r.2.1, r.2.2)

/-- Endpoint handler for `POST /session/:sessionId/url`, composed with
`apiWrapper`: a falsy `body.url` (absent or empty) yields
`InvalidArgumentError` before `navigateTo` is reached; otherwise the
`navigateTo` result is turned into `Success({})`. -/
def postSessionUrl (navRes : Except Thrown Unit) (s : SSState)
    (sessionId : String) (bodyUrl : Option String) :
    WireResponse × SSState × List Event :=
  match bodyUrl with
  | none => (apiWrapper (.ok InvalidArgumentError), s, [])
  | some url =>
    if url = "" then (apiWrapper (.ok InvalidArgumentError), s, [])
    else
      let r := navigateTo navRes s sessionId url
      let handlerOut : Outcome GenericWebDriverResponse :=
        match r.1 with
        | .ok _ => .ok (Success (.obj []))
        | .thrown t => .thrown t
        | .nullDeref => .nullDeref
      (apiWrapper handlerOut, r.2.1, r.2.2)

/-- Endpoint handler for `DELETE /session/:sessionId`, composed with
`apiWrapper`: await `closeSession`, then `Success({})`. -/
def deleteSession (closeRes : Except Thrown Unit) (s : SSState)
    (sessionId : String) : WireResponse × SSState × List Event :=
  let r := closeSession closeRes s sessionId
  let handlerOut : Outcome GenericWebDriverResponse :=
    match r.1 with
    | .ok _ => .ok (Success (.obj []))
    | .thrown t => .thrown t
    | .nullDeref => .nullDeref
  (apiWrapper handlerOut, r.2.1, r.2.2)

/-- Endpoint handler for `DELETE /session/:sessionId/window`: same body as
`DELETE /session/:sessionId`. -/
def deleteSessionWindow (closeRes : Except Thrown Unit) (s : SSState)
    (sessionId : String) : WireResponse × SSState × List Event :=
  let r := closeSession closeRes s sessionId
  let handlerOut : Outcome GenericWebDriverResponse :=
    match r.1 with
    | .ok _ => .ok (Success (.obj []))
    | .thrown t => .thrown t
    | .nullDeref => .nullDeref
  (apiWrapper handlerOut, r.2.1, r.2.2)

/-- Endpoint handler for `GET /shutdown`, composed with `apiWrapper`.
`listening` is whether `this.server` is accepting connections; on a normal
`shutdown()` return the handler calls `this.server.close()` and returns
`Success({})`; if `shutdown()` throws, `apiWrapper` catches it before
`this.server.close()` is reached. -/
def getShutdownEndpoint (closeRes shutdownRes : Except Thrown Unit)
    (s : SSState) (listening : Bool) :
    WireResponse × SSState × Bool × List Event :=
  let r := shutdown closeRes shutdownRes s
  match r.1 with
  | .ok _ => (apiWrapper (.ok (Success (.obj []))), r.2.1, false, r.2.2)
  | .thrown t => (apiWrapper (.thrown t), r.2.1, listening, r.2.2)
  | .nullDeref => (apiWrapper .nullDeref, r.2.1, listening, r.2.2)

/-- Helper: `List.getD` yields the default or a list element. -/
theorem getD_eq_default_or_mem (l : List Char) (n : Nat) (d : Char) :
    l.getD n d = d ∨ l.getD n d ∈ l := by
  induction l generalizing n with
  | nil => left; rfl
  | cons a l ih =>
    cases n with
    | zero => right; simp
    | succ m =>
      have he : (a :: l).getD (m + 1) d = l.getD m d := rfl
      rw [he]
      rcases ih m with h | h
      · left; exact h
      · right; exact List.mem_cons_of_mem a h

/-- Every output of `hexDigit` is a lowercase hex digit. -/
theorem hexDigit_mem_hexDigits (n : Nat) : hexDigit n ∈ hexDigits := by
  unfold hexDigit
  rcases getD_eq_default_or_mem hexDigits n '0' with h | h
  · rw [h]; decide
  · exact h

/-- The hex character list of a byte list has two characters per byte. -/
theorem bytesToHexChars_length (bs : List Nat) :
    (bytesToHexChars bs).length = 2 * bs.length := by
  induction bs with
  | nil => rfl
  | cons b bs ih =>
    unfold bytesToHexChars at ih ⊢
    simp only [List.map_cons, List.flatten_cons, List.length_append,
      List.length_cons, byteHex, List.length_nil] at ih ⊢
    omega

/-- The hex string of a byte list has two characters per byte. -/
theorem bytesToHex_length (bs : List Nat) :
    (bytesToHex bs).length = 2 * bs.length :=
  bytesToHexChars_length bs

/-- Every character of the hex encoding is a lowercase hex digit. -/
theorem bytesToHexChars_subset (bs : List Nat) (c : Char)
    (hc : c ∈ bytesToHexChars bs) : c ∈ hexDigits := by
  induction bs with
  | nil => simp [bytesToHexChars] at hc
  | cons b bs ih =>
    unfold bytesToHexChars at hc
    simp only [List.map_cons, List.flatten_cons, List.mem_append] at hc
    rcases hc with h | h
    · simp only [byteHex, List.mem_cons, List.not_mem_nil, or_false] at h
      rcases h with h | h <;> (subst h; exact hexDigit_mem_hexDigits _)
    · exact ih h

/-- The id produced from the sixteen `randomBytes` output bytes is never the
empty string, hence always truthy in the JavaScript guards. -/
theorem bytesToHex_ofFn_ne_empty (f : Fin NUM_RANDOM_ID_BYTES → Nat) :
    bytesToHex (List.ofFn f) ≠ "" := by
  intro h
  have hl := bytesToHex_length (List.ofFn f)
  rw [h] at hl
  simp [NUM_RANDOM_ID_BYTES] at hl

/-- State invariant of the lifecycle manager: the session id is empty
exactly when the timer handle is `null`, and a live timer was armed for the
currently stored session id. -/
def Inv (s : SSState) : Prop :=
  (s.sessionId = "" ↔ s.timeout = none) ∧
  ∀ t, s.timeout = some t → t.armedFor = s.sessionId

/-- The constructor state satisfies the invariant. -/
theorem inv_initState : Inv initState := by
  constructor
  · simp [initState]
  · intro t ht; simp [initState] at ht

/-- Every operation preserves the state invariant. -/
theorem inv_step (idleSec : Nat) (s : SSState) (op : Op) (h : Inv s) :
    Inv (step idleSec s op) := by
  have hclose : ∀ closeRes id, Inv (closeSession closeRes s id).2.1 := by
    intro closeRes id
    unfold closeSession
    split
    · exact h
    · split <;>
        exact ⟨by simp, by intro t ht; simp at ht⟩
  cases op with
  | create bytes =>
    show Inv (createSession idleSec (List.ofFn bytes) s).2.1
    unfold createSession
    split
    · exact h
    · refine ⟨?_, ?_⟩
      · simp only
        constructor
        · intro hid; exact absurd hid (bytesToHex_ofFn_ne_empty bytes)
        · intro hnone; simp at hnone
      · intro t ht
        simp only [Option.some.injEq] at ht
        subst ht; rfl
  | navigate id url navRes =>
    show Inv (navigateTo navRes s id url).2.1
    unfold navigateTo
    split
    · exact h
    · split
      · exact h
      · split <;> exact h
  | title id =>
    show Inv (getTitle s id).2.1
    unfold getTitle
    split
    · exact h
    · split <;> exact h
  | close id closeRes => exact hclose closeRes id
  | shutdownOp closeRes shutdownRes =>
    show Inv (shutdown closeRes shutdownRes s).2.1
    unfold shutdown
    split <;> simp only <;> split <;>
      first
        | exact h
        | exact hclose closeRes s.sessionId
  | fire closeRes =>
    show Inv (fireTimer closeRes s).1
    unfold fireTimer
    split
    · exact h
    · exact hclose closeRes s.sessionId

/-- Every reachable state of the lifecycle manager satisfies the invariant. -/
theorem reachable_inv (idleSec : Nat) (s : SSState)
    (h : Reachable idleSec s) : Inv s := by
  induction h with
  | start => exact inv_initState
  | next s op _ ih => exact inv_step idleSec s op ih

/-- Characterization: `createSession` while a session is active. -/
theorem createSession_active (idleSec : Nat) (bytes : List Nat) (s : SSState)
    (h : s.sessionId ≠ "") :
    createSession idleSec bytes s = (.ok none, s, [.logError]) := by
  unfold createSession
  rw [if_pos h]

/-- Characterization: `createSession` while idle. -/
theorem createSession_of_idle (idleSec : Nat) (bytes : List Nat) (s : SSState)
    (h : s.sessionId = "") :
    createSession idleSec bytes s =
      (.ok (some (bytesToHex bytes)),
       ⟨bytesToHex bytes,
        some ⟨bytesToHex bytes, idleSec * MILLISECONDS_PER_SECOND⟩⟩,
       [.timerArmed (bytesToHex bytes) (idleSec * MILLISECONDS_PER_SECOND)]) := by
  unfold createSession
  rw [if_neg (by simp [h])]

/-- Characterization: `closeSession` on a missing or mismatched id. -/
theorem closeSession_miss (closeRes : Except Thrown Unit) (s : SSState)
    (id : String) (h : s.sessionId = "" ∨ id ≠ s.sessionId) :
    closeSession closeRes s id = (.ok (), s, []) := by
  unfold closeSession
  rw [if_pos h]

/-- Characterization: `closeSession` on the matching id. -/
theorem closeSession_hit (closeRes : Except Thrown Unit) (s : SSState)
    (id : String) (h1 : s.sessionId ≠ "") (h2 : id = s.sessionId) :
    closeSession closeRes s id =
      (.ok (), ⟨"", none⟩,
       match closeRes with
       | .ok _ => [.timerCleared, .closeHook]
       | .error _ => [.timerCleared, .closeHook, .logError]) := by
  unfold closeSession
  rw [if_neg (not_or.mpr ⟨h1, not_not_intro h2⟩)]
  cases closeRes <;> rfl

/-- Helper: `closeSession` always returns normally. -/
theorem closeSession_ok (closeRes : Except Thrown Unit) (s : SSState)
    (id : String) : (closeSession closeRes s id).1 = .ok () := by
  unfold closeSession
  split
  · rfl
  · cases closeRes <;> rfl

/-- Helper: `closeSession` leaves the state alone or resets it. -/
theorem closeSession_state (closeRes : Except Thrown Unit) (s : SSState)
    (id : String) :
    (closeSession closeRes s id).2.1 = s ∨
      (closeSession closeRes s id).2.1 = ⟨"", none⟩ := by
  unfold closeSession
  split
  · left; rfl
  · cases closeRes <;> (right; rfl)

/-- Helper: the close hook is invoked on every matching close. -/
theorem closeSession_hit_closeHook (closeRes : Except Thrown Unit)
    (s : SSState) (id : String) (h1 : s.sessionId ≠ "")
    (h2 : id = s.sessionId) :
    Event.closeHook ∈ (closeSession closeRes s id).2.2 := by
  cases closeRes <;> rw [closeSession_hit _ _ _ h1 h2] <;> simp

/-- Characterization: `navigateTo` on a missing or mismatched id. -/
theorem navigateTo_invalid (navRes : Except Thrown Unit) (s : SSState)
    (id url : String) (h : s.sessionId = "" ∨ id ≠ s.sessionId) :
    navigateTo navRes s id url = (.thrown (.resp InvalidSessionIdError), s, []) := by
  unfold navigateTo
  rw [if_pos h]

/-- Characterization: `navigateTo` on the matching id with a live timer. -/
theorem navigateTo_valid (navRes : Except Thrown Unit) (s : SSState)
    (id url : String) (t : Timer) (h1 : s.sessionId ≠ "")
    (h2 : id = s.sessionId) (ht : s.timeout = some t) :
    navigateTo navRes s id url =
      ((match navRes with | .ok _ => .ok () | .error e => .thrown e), s,
       [.timerRefresh, .navigateHook url]) := by
  unfold navigateTo
  rw [if_neg (not_or.mpr ⟨h1, not_not_intro h2⟩), ht]
  cases navRes <;> rfl

/-- Characterization: `navigateTo` on the matching id with a `null` timer
handle crashes in `this.timeout_.refresh()`. -/
theorem navigateTo_nullDeref (navRes : Except Thrown Unit) (s : SSState)
    (id url : String) (h1 : s.sessionId ≠ "") (h2 : id = s.sessionId)
    (ht : s.timeout = none) :
    navigateTo navRes s id url = (.nullDeref, s, []) := by
  unfold navigateTo
  rw [if_neg (not_or.mpr ⟨h1, not_not_intro h2⟩), ht]

/-- Helper: `navigateTo` never changes the stored state. -/
theorem navigateTo_state (navRes : Except Thrown Unit) (s : SSState)
    (id url : String) : (navigateTo navRes s id url).2.1 = s := by
  unfold navigateTo
  split
  · rfl
  · split
    · rfl
    · cases navRes <;> rfl

/-- Characterization: `getTitle` on a missing or mismatched id. -/
theorem getTitle_invalid (s : SSState) (id : String)
    (h : s.sessionId = "" ∨ id ≠ s.sessionId) :
    getTitle s id = (.thrown (.resp InvalidSessionIdError), s, []) := by
  unfold getTitle
  rw [if_pos h]

/-- Characterization: `getTitle` on the matching id with a live timer. -/
theorem getTitle_valid (s : SSState) (id : String) (t : Timer)
    (h1 : s.sessionId ≠ "") (h2 : id = s.sessionId) (ht : s.timeout = some t) :
    getTitle s id = (.ok "Title of the page", s, [.timerRefresh]) := by
  unfold getTitle
  rw [if_neg (not_or.mpr ⟨h1, not_not_intro h2⟩), ht]

/-- Characterization: `getTitle` on the matching id with a `null` timer
handle crashes in `this.timeout_.refresh()`. -/
theorem getTitle_nullDeref (s : SSState) (id : String)
    (h1 : s.sessionId ≠ "") (h2 : id = s.sessionId) (ht : s.timeout = none) :
    getTitle s id = (.nullDeref, s, []) := by
  unfold getTitle
  rw [if_neg (not_or.mpr ⟨h1, not_not_intro h2⟩), ht]

/-- Helper: `getTitle` never changes the stored state. -/
theorem getTitle_state (s : SSState) (id : String) :
    (getTitle s id).2.1 = s := by
  unfold getTitle
  split
  · rfl
  · split <;> rfl

/-- Characterization of `shutdown` in terms of `closeSession`. -/
theorem shutdown_eq (closeRes shutdownRes : Except Thrown Unit) (s : SSState) :
    shutdown closeRes shutdownRes s =
      ((match shutdownRes with | .ok _ => Outcome.ok () | .error e => Outcome.thrown e),
       (if s.sessionId ≠ "" then (closeSession closeRes s s.sessionId).2.1 else s),
       (if s.sessionId ≠ "" then (closeSession closeRes s s.sessionId).2.2 else []) ++
         [.shutdownHook]) := by
  unfold shutdown
  cases shutdownRes <;> by_cases h : s.sessionId ≠ "" <;> simp [h]

/-- Characterization: a live timer fires the callback, a cleared one is inert. -/
theorem fireTimer_armed (closeRes : Except Thrown Unit) (s : SSState)
    (t : Timer) (ht : s.timeout = some t) :
    fireTimer closeRes s =
      ((closeSession closeRes s s.sessionId).2.1,
       (closeSession closeRes s s.sessionId).2.2) := by
  unfold fireTimer
  rw [ht]

/-- C1: over every lifecycle-manager operation (createSession, navigateTo,
getTitle, closeSession, shutdown, and the timer callback), whenever the
stored session id changes, either it is cleared, or the server was Idle and
`createSession` committed exactly the one id it generated; so at most one
session id is stored at any time and no operation installs a second id
while one is active. -/
theorem session_id_changes_only_by_create (idleSec : Nat) (s : SSState)
    (op : Op) (h : (step idleSec s op).sessionId ≠ s.sessionId) :
    (step idleSec s op).sessionId = "" ∨
      (s.sessionId = "" ∧ ∃ bytes, op = Op.create bytes ∧
        (step idleSec s op).sessionId = bytesToHex (List.ofFn bytes)) := by
  cases op with
  | create bytes =>
    by_cases hs : s.sessionId = ""
    · right
      refine ⟨hs, bytes, rfl, ?_⟩
      show (createSession idleSec (List.ofFn bytes) s).2.1.sessionId = _
      rw [createSession_of_idle _ _ _ hs]
    · exact absurd (by
        show (createSession idleSec (List.ofFn bytes) s).2.1.sessionId = _
        rw [createSession_active _ _ _ hs]) h
  | navigate id url navRes =>
    exact absurd (congrArg SSState.sessionId (navigateTo_state navRes s id url)) h
  | title id =>
    exact absurd (congrArg SSState.sessionId (getTitle_state s id)) h
  | close id closeRes =>
    rcases closeSession_state closeRes s id with hc | hc
    · exact absurd (congrArg SSState.sessionId hc) h
    · left; exact congrArg SSState.sessionId hc
  | shutdownOp closeRes shutdownRes =>
    have hst : (step idleSec s (Op.shutdownOp closeRes shutdownRes)).sessionId =
        (shutdown closeRes shutdownRes s).2.1.sessionId := rfl
    rw [hst, shutdown_eq] at h ⊢
    by_cases ha : s.sessionId ≠ ""
    · rw [if_pos ha] at h ⊢
      rcases closeSession_state closeRes s s.sessionId with hc | hc
      · exact absurd (congrArg SSState.sessionId hc) h
      · left; exact congrArg SSState.sessionId hc
    · rw [if_neg ha] at h
      exact absurd rfl h
  | fire closeRes =>
    cases hto : s.timeout with
    | none =>
      refine absurd ?_ h
      show (fireTimer closeRes s).1.sessionId = _
      unfold fireTimer
      rw [hto]
    | some t =>
      have hgoal : (step idleSec s (Op.fire closeRes)).sessionId =
          (closeSession closeRes s s.sessionId).2.1.sessionId := by
        show (fireTimer closeRes s).1.sessionId = _
        rw [fireTimer_armed closeRes s t hto]
      rw [hgoal] at h ⊢
      rcases closeSession_state closeRes s s.sessionId with hc | hc
      · exact absurd (congrArg SSState.sessionId hc) h
      · left; exact congrArg SSState.sessionId hc

/-- Witness for C1 at a concrete input: creating a session from the
constructor state changes the stored id, and the change is the committed
hex id. -/
theorem session_id_changes_only_by_create_witness :
    (step 120 initState (Op.create fun _ => 0)).sessionId ≠
        initState.sessionId ∧
    ((step 120 initState (Op.create fun _ => 0)).sessionId = "" ∨
      (initState.sessionId = "" ∧ ∃ bytes,
        Op.create (fun _ => 0) = Op.create bytes ∧
        (step 120 initState (Op.create fun _ => 0)).sessionId =
          bytesToHex (List.ofFn bytes))) :=
  ⟨by decide,
   session_id_changes_only_by_create 120 initState (Op.create fun _ => 0)
     (by decide)⟩

/-- C2: the dispatcher resolves every handler outcome into a well-formed
wire response: a returned `Response` is used; a thrown value that is itself
a `Response` becomes the result; any other thrown value (including the
`TypeError` case) becomes `UnknownError`, whose HTTP status is 500; and the
wire response always carries the chosen response's `httpStatusCode` as HTTP
status with body exactly `{value: payload}`.  `apiWrapper` is total, so no
outcome escapes it. -/
theorem dispatcher_resolves_every_outcome :
    (∀ r, responseOf (Outcome.ok r) = r) ∧
    (∀ r, responseOf (Outcome.thrown (Thrown.resp r)) = r) ∧
    (∀ m, responseOf (Outcome.thrown (Thrown.other m)) = UnknownError) ∧
    responseOf Outcome.nullDeref = UnknownError ∧
    UnknownError.httpStatusCode = 500 ∧
    (∀ o, apiWrapper o =
      ⟨(responseOf o).httpStatusCode,
       JsValue.obj [("value", (responseOf o).value)]⟩) :=
  ⟨fun _ => rfl, fun _ => rfl, fun _ => rfl, rfl, rfl, fun _ => rfl⟩

/-- C3: `createSession` in the Idle state returns the hex encoding of the
sixteen bytes drawn from the random source - a 32-character string over the
hex alphabet - stores it as the active session, and arms the idle-eviction
timer for `idleTimeoutSeconds * MILLISECONDS_PER_SECOND`. -/
theorem createSession_idle_commits_hex_id (idleSec : Nat) (bytes : List Nat)
    (s : SSState) (hidle : s.sessionId = "")
    (hlen : bytes.length = NUM_RANDOM_ID_BYTES) :
    (createSession idleSec bytes s).1 = .ok (some (bytesToHex bytes)) ∧
    (bytesToHex bytes).length = 32 ∧
    (∀ c ∈ (bytesToHex bytes).data, c ∈ hexDigits) ∧
    (createSession idleSec bytes s).2.1 =
      ⟨bytesToHex bytes,
       some ⟨bytesToHex bytes, idleSec * MILLISECONDS_PER_SECOND⟩⟩ ∧
    (createSession idleSec bytes s).2.2 =
      [.timerArmed (bytesToHex bytes) (idleSec * MILLISECONDS_PER_SECOND)] := by
  have hc := createSession_of_idle idleSec bytes s hidle
  refine ⟨by rw [hc], ?_, ?_, by rw [hc], by rw [hc]⟩
  · rw [bytesToHex_length, hlen]; decide
  · intro c hcmem
    exact bytesToHexChars_subset bytes c hcmem

/-- Witness for C3 at a concrete input: sixteen zero bytes from the
constructor state give a 32-character hex id. -/
theorem createSession_idle_commits_hex_id_witness :
    initState.sessionId = "" ∧
    (List.replicate 16 0).length = NUM_RANDOM_ID_BYTES ∧
    (bytesToHex (List.replicate 16 0)).length = 32 :=
  ⟨rfl, by decide,
   (createSession_idle_commits_hex_id 120 (List.replicate 16 0) initState rfl
     (by decide)).2.1⟩

/-- C4: `createSession` while a session is active returns `null`, leaves
the active id and timer untouched, and the `POST /session` endpoint turns
the `null` into `SessionNotCreatedError` on the wire (HTTP 500 with body
`{value: {error: "session not created"}}`), again leaving the state
untouched. -/
theorem createSession_active_returns_null (idleSec : Nat) (bytes : List Nat)
    (s : SSState) (hactive : s.sessionId ≠ "") :
    (createSession idleSec bytes s).1 = .ok none ∧
    (createSession idleSec bytes s).2.1 = s ∧
    (postSession idleSec bytes s).1 =
      ⟨500, .obj [("value", .obj [("error", .str "session not created")])]⟩ ∧
    (postSession idleSec bytes s).2.1 = s := by
  have hc := createSession_active idleSec bytes s hactive
  refine ⟨by rw [hc], by rw [hc], ?_, ?_⟩ <;>
    simp [postSession, hc, apiWrapper, responseOf, SessionNotCreatedError]

/-- Witness for C4 at a concrete input: a second create call against an
active session leaves its state untouched. -/
theorem createSession_active_returns_null_witness :
    (⟨"ab", some ⟨"ab", 7⟩⟩ : SSState).sessionId ≠ "" ∧
    (postSession 120 [] ⟨"ab", some ⟨"ab", 7⟩⟩).2.1 = ⟨"ab", some ⟨"ab", 7⟩⟩ :=
  ⟨by decide,
   (createSession_active_returns_null 120 [] ⟨"ab", some ⟨"ab", 7⟩⟩
     (by decide)).2.2.2⟩

/-- C5: `closeSession` always returns normally; on a missing or mismatched
id it is a silent no-op leaving state and trace unchanged; on the matching
id it clears the session and the timer and invokes the close hook (whose
failure is logged and swallowed); and both DELETE endpoints always answer
HTTP 200 with body `{value: {}}`. -/
theorem closeSession_never_raises (closeRes : Except Thrown Unit)
    (s : SSState) (id : String) :
    (closeSession closeRes s id).1 = .ok () ∧
    ((s.sessionId = "" ∨ id ≠ s.sessionId) →
      closeSession closeRes s id = (.ok (), s, [])) ∧
    (s.sessionId ≠ "" → id = s.sessionId →
      (closeSession closeRes s id).2.1 = ⟨"", none⟩ ∧
      Event.closeHook ∈ (closeSession closeRes s id).2.2 ∧
      Event.timerCleared ∈ (closeSession closeRes s id).2.2) ∧
    (deleteSession closeRes s id).1 = ⟨200, .obj [("value", .obj [])]⟩ ∧
    (deleteSessionWindow closeRes s id).1 = ⟨200, .obj [("value", .obj [])]⟩ := by
  have hok := closeSession_ok closeRes s id
  refine ⟨hok, fun h => closeSession_miss closeRes s id h, fun h1 h2 => ?_, ?_, ?_⟩
  · refine ⟨?_, closeSession_hit_closeHook closeRes s id h1 h2, ?_⟩
    · rw [closeSession_hit closeRes s id h1 h2]
    · cases closeRes with
      | ok a => rw [closeSession_hit (Except.ok a) s id h1 h2]; simp
      | error e => rw [closeSession_hit (Except.error e) s id h1 h2]; simp
  · simp [deleteSession, hok, apiWrapper, responseOf, Success]
  · simp [deleteSessionWindow, hok, apiWrapper, responseOf, Success]

/-- Witness for C5 at a concrete input: closing a mismatched id against an
active session is a no-op, and closing the matching id clears the state. -/
theorem closeSession_never_raises_witness :
    ((⟨"ab", some ⟨"ab", 7⟩⟩ : SSState).sessionId = "" ∨
      "zz" ≠ (⟨"ab", some ⟨"ab", 7⟩⟩ : SSState).sessionId) ∧
    closeSession (Except.ok ()) ⟨"ab", some ⟨"ab", 7⟩⟩ "zz" =
      (.ok (), ⟨"ab", some ⟨"ab", 7⟩⟩, []) ∧
    (⟨"cd", some ⟨"cd", 7⟩⟩ : SSState).sessionId ≠ "" ∧
    (closeSession (Except.error (Thrown.other "boom")) ⟨"cd", some ⟨"cd", 7⟩⟩
      "cd").2.1 = ⟨"", none⟩ :=
  ⟨Or.inr (by decide),
   (closeSession_never_raises (Except.ok ()) ⟨"ab", some ⟨"ab", 7⟩⟩ "zz").2.1
     (Or.inr (by decide)),
   by decide,
   ((closeSession_never_raises (Except.error (Thrown.other "boom"))
     ⟨"cd", some ⟨"cd", 7⟩⟩ "cd").2.2.1 (by decide) rfl).1⟩

/-- C6: provided the backend navigation hook does not itself throw
`InvalidSessionIdError`, `navigateTo` and `getTitle` throw
`InvalidSessionIdError` exactly when no session is active or the id
argument differs from the active id; on a matching id (with its live
timer) `navigateTo` refreshes the timer and delegates to the navigation
hook, while `getTitle` refreshes the timer and returns the fixed
placeholder title without invoking any backend hook. -/
theorem nav_title_reject_iff_mismatch (navRes : Except Thrown Unit)
    (s : SSState) (id url : String)
    (hnav : navRes ≠ Except.error (Thrown.resp InvalidSessionIdError)) :
    ((navigateTo navRes s id url).1 =
        .thrown (.resp InvalidSessionIdError) ↔
      s.sessionId = "" ∨ id ≠ s.sessionId) ∧
    ((getTitle s id).1 = .thrown (.resp InvalidSessionIdError) ↔
      s.sessionId = "" ∨ id ≠ s.sessionId) ∧
    (s.sessionId ≠ "" → id = s.sessionId → ∀ t, s.timeout = some t →
      (navigateTo navRes s id url).2.2 =
        [.timerRefresh, .navigateHook url] ∧
      getTitle s id = (.ok "Title of the page", s, [.timerRefresh])) := by
  by_cases hcond : s.sessionId = "" ∨ id ≠ s.sessionId
  · refine ⟨?_, ?_, ?_⟩
    · rw [navigateTo_invalid navRes s id url hcond]
      exact iff_of_true rfl hcond
    · rw [getTitle_invalid s id hcond]
      exact iff_of_true rfl hcond
    · intro h1 h2 t _
      rcases hcond with hc | hc
      · exact absurd hc h1
      · exact absurd h2 hc
  · push_neg at hcond
    obtain ⟨h1, h2⟩ := hcond
    have hnot : ¬(s.sessionId = "" ∨ id ≠ s.sessionId) :=
      fun hx => hx.elim h1 fun hne => hne h2
    refine ⟨?_, ?_, ?_⟩
    · cases hto : s.timeout with
      | none =>
        rw [navigateTo_nullDeref navRes s id url h1 h2 hto]
        exact iff_of_false (fun hx => Outcome.noConfusion hx) hnot
      | some t =>
        rw [navigateTo_valid navRes s id url t h1 h2 hto]
        cases navRes with
        | ok a =>
          exact iff_of_false (fun hx => Outcome.noConfusion hx) hnot
        | error e =>
          refine iff_of_false (fun hx => ?_) hnot
          have he : e = Thrown.resp InvalidSessionIdError := by
            injection hx
          exact hnav (by rw [he])
    · cases hto : s.timeout with
      | none =>
        rw [getTitle_nullDeref s id h1 h2 hto]
        exact iff_of_false (fun hx => Outcome.noConfusion hx) hnot
      | some t =>
        rw [getTitle_valid s id t h1 h2 hto]
        exact iff_of_false (fun hx => Outcome.noConfusion hx) hnot
    · intro h1' h2' t ht
      rw [navigateTo_valid navRes s id url t h1' h2' ht,
        getTitle_valid s id t h1' h2' ht]
      exact ⟨rfl, rfl⟩

/-- Witness for C6 at a concrete input: a mismatched id is rejected and the
matching id returns the placeholder title. -/
theorem nav_title_reject_iff_mismatch_witness :
    Except.ok () ≠ Except.error (Thrown.resp InvalidSessionIdError) ∧
    ((getTitle ⟨"ab", some ⟨"ab", 7⟩⟩ "zz").1 =
        .thrown (.resp InvalidSessionIdError) ↔
      (⟨"ab", some ⟨"ab", 7⟩⟩ : SSState).sessionId = "" ∨
        "zz" ≠ (⟨"ab", some ⟨"ab", 7⟩⟩ : SSState).sessionId) ∧
    getTitle ⟨"ab", some ⟨"ab", 7⟩⟩ "ab" =
      (.ok "Title of the page", ⟨"ab", some ⟨"ab", 7⟩⟩, [.timerRefresh]) :=
  ⟨fun h => Except.noConfusion h,
   (nav_title_reject_iff_mismatch (Except.ok ()) ⟨"ab", some ⟨"ab", 7⟩⟩
     "zz" "u" (fun h => Except.noConfusion h)).2.1,
   ((nav_title_reject_iff_mismatch (Except.ok ()) ⟨"ab", some ⟨"ab", 7⟩⟩
     "ab" "u" (fun h => Except.noConfusion h)).2.2 (by decide) rfl
     ⟨"ab", 7⟩ rfl).2⟩

/-- C7: `POST /session/{id}/url` with a body lacking `url` answers HTTP 400
with body `{value: {error: "invalid argument"}}`, leaves the state
untouched, and produces no events at all - in particular the navigation
hook is not invoked, no session-id check happens, and the idle timer is not
refreshed. -/
theorem missing_url_returns_invalid_argument (navRes : Except Thrown Unit)
    (s : SSState) (sessionId : String) :
    postSessionUrl navRes s sessionId none =
      (⟨400, .obj [("value", .obj [("error", .str "invalid argument")])]⟩,
       s, []) := rfl

/-- C8: `shutdown()` on an Active server produces exactly the close-call
trace (which invokes the backend close hook) followed by the shutdown hook,
and leaves the state cleared; on an Idle server only the shutdown hook
runs; and when the shutdown hook returns normally the `GET /shutdown`
endpoint stops the listener and answers HTTP 200 with body `{value: {}}`. -/
theorem shutdown_closes_session_before_hook
    (closeRes shutdownRes : Except Thrown Unit) (s : SSState)
    (listening : Bool) :
    (s.sessionId ≠ "" →
      (shutdown closeRes shutdownRes s).2.2 =
        (closeSession closeRes s s.sessionId).2.2 ++ [Event.shutdownHook] ∧
      Event.closeHook ∈ (closeSession closeRes s s.sessionId).2.2 ∧
      (shutdown closeRes shutdownRes s).2.1 = ⟨"", none⟩) ∧
    (s.sessionId = "" →
      (shutdown closeRes shutdownRes s).2.2 = [Event.shutdownHook]) ∧
    (shutdownRes = Except.ok () →
      (getShutdownEndpoint closeRes shutdownRes s listening).1 =
        ⟨200, .obj [("value", .obj [])]⟩ ∧
      (getShutdownEndpoint closeRes shutdownRes s listening).2.2.1 = false) := by
  have hsh := shutdown_eq closeRes shutdownRes s
  refine ⟨fun ha => ?_, fun hi => ?_, fun hok => ?_⟩
  · refine ⟨?_, closeSession_hit_closeHook closeRes s s.sessionId ha rfl, ?_⟩
    · rw [hsh]; simp [ha]
    · rw [hsh]; simp only [if_pos ha]
      rw [closeSession_hit closeRes s s.sessionId ha rfl]
  · rw [hsh]; simp [hi]
  · subst hok
    have h1 : (shutdown closeRes (Except.ok ()) s).1 = Outcome.ok () := by
      rw [hsh]
    constructor <;> simp [getShutdownEndpoint, h1, apiWrapper, responseOf, Success]

/-- Witness for C8 at a concrete input: on an active session the trace is
the close trace followed by the shutdown hook, and the endpoint stops the
listener. -/
theorem shutdown_closes_session_before_hook_witness :
    (⟨"ab", some ⟨"ab", 7⟩⟩ : SSState).sessionId ≠ "" ∧
    (shutdown (Except.ok ()) (Except.ok ()) ⟨"ab", some ⟨"ab", 7⟩⟩).2.2 =
      (closeSession (Except.ok ()) ⟨"ab", some ⟨"ab", 7⟩⟩ "ab").2.2 ++
        [Event.shutdownHook] ∧
    (getShutdownEndpoint (Except.ok ()) (Except.ok ())
      ⟨"ab", some ⟨"ab", 7⟩⟩ true).2.2.1 = false :=
  ⟨by decide,
   ((shutdown_closes_session_before_hook (Except.ok ()) (Except.ok ())
     ⟨"ab", some ⟨"ab", 7⟩⟩ true).1 (by decide)).1,
   ((shutdown_closes_session_before_hook (Except.ok ()) (Except.ok ())
     ⟨"ab", some ⟨"ab", 7⟩⟩ true).2.2 rfl).2⟩

/-- C9: in every reachable state with an armed timer, the timer was armed
for the currently active session, so firing it evicts exactly that session
(clearing id and handle); and every matching close clears the timer handle,
so a timer armed for one session can never evict a different, later
session on the same server instance. -/
theorem armed_timer_evicts_only_its_session (idleSec : Nat) (s : SSState)
    (t : Timer) (closeRes : Except Thrown Unit)
    (hreach : Reachable idleSec s) (ht : s.timeout = some t) :
    t.armedFor = s.sessionId ∧
    (fireTimer closeRes s).1 = ⟨"", none⟩ ∧
    Event.closeHook ∈ (fireTimer closeRes s).2 ∧
    (∀ (s' : SSState) (id : String) (closeRes' : Except Thrown Unit),
      s'.sessionId ≠ "" → id = s'.sessionId →
      (closeSession closeRes' s' id).2.1.timeout = none) := by
  obtain ⟨hiff, harm⟩ := reachable_inv idleSec s hreach
  have hne : s.sessionId ≠ "" := by
    intro h0
    rw [hiff.mp h0] at ht
    exact Option.noConfusion ht
  have hfire := fireTimer_armed closeRes s t ht
  refine ⟨harm t ht, ?_, ?_, ?_⟩
  · rw [hfire]
    rw [closeSession_hit closeRes s s.sessionId hne rfl]
  · rw [hfire]
    exact closeSession_hit_closeHook closeRes s s.sessionId hne rfl
  · intro s' id closeRes' h1 h2
    rw [closeSession_hit closeRes' s' id h1 h2]

/-- Witness for C9 at a concrete input: after creating a session from the
constructor state, the armed timer fires into the cleared state. -/
theorem armed_timer_evicts_only_its_session_witness :
    (step 120 initState (Op.create fun _ => 0)).timeout =
      some ⟨bytesToHex (List.ofFn fun _ : Fin NUM_RANDOM_ID_BYTES => 0),
            120 * MILLISECONDS_PER_SECOND⟩ ∧
    (fireTimer (Except.ok ()) (step 120 initState (Op.create fun _ => 0))).1 =
      ⟨"", none⟩ :=
  ⟨rfl,
   (armed_timer_evicts_only_its_session 120 _ _ (Except.ok ())
     (Reachable.next initState (Op.create fun _ => 0) Reachable.start)
     rfl).2.1⟩

/-- C10: every reachable state has an empty session id exactly when the
timer handle is `null`, every operation preserves that invariant, and
consequently `navigateTo` and `getTitle` never reach the
`this.timeout_.refresh()` call with a `null` handle. -/
theorem idle_iff_no_timer_and_refresh_safe (idleSec : Nat) (s : SSState)
    (id url : String) (navRes : Except Thrown Unit)
    (hreach : Reachable idleSec s) :
    (s.sessionId = "" ↔ s.timeout = none) ∧
    (∀ op, ((step idleSec s op).sessionId = "" ↔
      (step idleSec s op).timeout = none)) ∧
    (navigateTo navRes s id url).1 ≠ Outcome.nullDeref ∧
    (getTitle s id).1 ≠ Outcome.nullDeref := by
  obtain ⟨hiff, _⟩ := reachable_inv idleSec s hreach
  refine ⟨hiff,
    fun op => (reachable_inv idleSec _ (Reachable.next s op hreach)).1,
    ?_, ?_⟩
  · by_cases hcond : s.sessionId = "" ∨ id ≠ s.sessionId
    · rw [navigateTo_invalid navRes s id url hcond]
      exact fun hx => Outcome.noConfusion hx
    · push_neg at hcond
      obtain ⟨h1, h2⟩ := hcond
      obtain ⟨t, ht⟩ : ∃ t, s.timeout = some t := by
        cases hto : s.timeout with
        | none => exact absurd (hiff.mpr hto) h1
        | some t => exact ⟨t, rfl⟩
      rw [navigateTo_valid navRes s id url t h1 h2 ht]
      cases navRes with
      | ok a => exact fun hx => Outcome.noConfusion hx
      | error e => exact fun hx => Outcome.noConfusion hx
  · by_cases hcond : s.sessionId = "" ∨ id ≠ s.sessionId
    · rw [getTitle_invalid s id hcond]
      exact fun hx => Outcome.noConfusion hx
    · push_neg at hcond
      obtain ⟨h1, h2⟩ := hcond
      obtain ⟨t, ht⟩ : ∃ t, s.timeout = some t := by
        cases hto : s.timeout with
        | none => exact absurd (hiff.mpr hto) h1
        | some t => exact ⟨t, rfl⟩
      rw [getTitle_valid s id t h1 h2 ht]
      exact fun hx => Outcome.noConfusion hx

/-- Witness for C10 at a concrete input: the constructor state is reachable
and safe. -/
theorem idle_iff_no_timer_and_refresh_safe_witness :
    (initState.sessionId = "" ↔ initState.timeout = none) ∧
    (getTitle initState "x").1 ≠ Outcome.nullDeref :=
  ⟨(idle_iff_no_timer_and_refresh_safe 120 initState "x" "u" (Except.ok ())
     Reachable.start).1,
   (idle_iff_no_timer_and_refresh_safe 120 initState "x" "u" (Except.ok ())
     Reachable.start).2.2.2⟩

end WebDriver
